import Mathlib

/-!
Verification development for the rsub Sublime Text plugin (`rsub.py`).

The protocol engine is embedded shallowly:

* the byte stream arriving on a connection is a `List Nat` (one `Nat` per
  byte, always `< 256` on real inputs, though nothing below depends on that);
* `ConnectionHandler.handle` / `ConnectionHandler.handle_open` become pure
  functions from the input byte stream to `Except PyErr _`, where `PyErr`
  records which Python exception escapes;
* the filesystem, the socket, and the global `sessions` registry become
  explicit state threaded through the `Session` operations; fallible
  system calls (`mkdtemp`, `write`, `unlink`, `socket.send`, ...) take an
  explicit outcome parameter modelling the environment's nondeterminism.

Lines are decoded as UTF-8 and stripped by the source; all protocol
comparisons are against ASCII literals, so lines are kept as byte lists and
`strip` is modelled on ASCII whitespace bytes.
-/

/-- Bytes of an ASCII string literal (`Char.toNat` equals the UTF-8 byte for
the ASCII literals used by the protocol). -/
def strBytes (s : String) : List Nat :=
  s.data.map Char.toNat

/-- ASCII whitespace, as removed by Python `str.strip()` on protocol lines. -/
def isSpaceB (b : Nat) : Bool :=
  b == 32 || b == 9 || b == 10 || b == 13 || b == 11 || b == 12

/-- Python `str.strip()`: drop leading and trailing whitespace. -/
def stripBytes (s : List Nat) : List Nat :=
  ((s.dropWhile isSpaceB).reverse.dropWhile isSpaceB).reverse

/-- One step of iterating a binary file object: the next line (terminator
included, as Python keeps it) and the remaining stream.  At end of stream the
final unterminated chunk is returned. -/
def readLine : List Nat → List Nat × List Nat
  | [] => ([], [])
  | b :: rest =>
    if b = 10 then ([10], rest)
    else
      let r := readLine rest
      (b :: r.1, r.2)

/-- Python `line.split(":", 1)`: split at the first colon; `none` models the
`ValueError` raised by unpacking a colon-free line into `name, value`. -/
def splitColon1 : List Nat → Option (List Nat × List Nat)
  | [] => none
  | b :: rest =>
    if b = 58 then some ([], rest)
    else (splitColon1 rest).map fun p => (b :: p.1, p.2)

/-- ASCII decimal digit. -/
def isDigitB (b : Nat) : Bool :=
  48 ≤ b && b ≤ 57

/-- Python `int(value)` on an already-stripped string, restricted to the
canonical all-digits decimal forms the protocol uses; `none` models the
`ValueError` raised on non-numeric input. -/
def parseDecimal (s : List Nat) : Option Nat :=
  if s.isEmpty then none
  else if s.all isDigitB then some (s.foldl (fun a b => a * 10 + (b - 48)) 0)
  else none

/-- Decimal rendering of a byte count, as `"%d" % n` produces. -/
def natBytes (n : Nat) : List Nat :=
  (toString n).data.map Char.toNat

/-- Python exceptions that can escape the embedded operations. -/
inductive PyErr where
  | valueError
  | keyError
  | attributeError
  | osError
  | fileNotFoundError
  | ioError
deriving DecidableEq, Repr

instance {e a : Type} [DecidableEq e] [DecidableEq a] : DecidableEq (Except e a) := fun x y =>
  match x, y with
  | .ok u, .ok v =>
    if h : u = v then isTrue (by rw [h]) else isFalse (by intro hc; injection hc; exact h (by assumption))
  | .error u, .error v =>
    if h : u = v then isTrue (by rw [h]) else isFalse (by intro hc; injection hc; exact h (by assumption))
  | .ok u, .error v => isFalse (by intro hc; cases hc)
  | .error u, .ok v => isFalse (by intro hc; cases hc)

/-- The fully-parsed result of one `open` transfer: the header dictionary
(the source's `variables`, renamed since that word is reserved in Lean; kept
in insertion order, later bindings shadowing earlier ones) and the raw
payload bytes. -/
structure OpenReq where
  headerVars : List (List Nat × List Nat)
  payload : List Nat
deriving DecidableEq, Repr

/-- Lookup in the header dictionary; the last insertion for a key wins,
matching Python `dict` assignment. -/
def dictGet (d : List (List Nat × List Nat)) (k : List Nat) : Option (List Nat) :=
  (d.reverse.find? fun p => p.1 == k).map (·.2)

theorem readLine_snd_le (s : List Nat) : (readLine s).2.length ≤ s.length := by
  induction s with
  | nil => simp [readLine]
  | cons b rest ih =>
    by_cases h : b = 10 <;> simp [readLine, h] <;> omega

theorem readLine_snd_cons_le (b : Nat) (rest : List Nat) :
    (readLine (b :: rest)).2.length ≤ rest.length := by
  by_cases h : b = 10
  · simp [readLine, h]
  · simpa [readLine, h] using readLine_snd_le rest

/-- The body of `ConnectionHandler.handle_open`: the header loop.  Each
iteration reads one line; a blank line ends the loop; a colon-free line or a
non-numeric `data` value raises `ValueError`; a `data` header immediately
consumes the declared number of raw bytes from the stream; any other header
is stored.  Returns the completed request together with the unconsumed
stream. -/
def handleOpenLoop (stream : List Nat) (vars : List (List Nat × List Nat))
    (data : List Nat) : Except PyErr (OpenReq × List Nat) :=
  match stream with
  | [] => .ok (⟨vars, data⟩, [])
  | b :: rest =>
    let r := readLine (b :: rest)
    let line := stripBytes r.1
    if line = [] then .ok (⟨vars, data⟩, r.2)
    else
      match splitColon1 line with
      | none => .error .valueError
      | some nv =>
        let name := stripBytes nv.1
        let value := stripBytes nv.2
        if name = strBytes "data" then
          match parseDecimal value with
          | none => .error .valueError
          | some k => handleOpenLoop (r.2.drop k) vars (data ++ r.2.take k)
        else handleOpenLoop r.2 (vars ++ [(name, value)]) data
termination_by stream.length
decreasing_by
  · have h1 := readLine_snd_cons_le b rest
    have h2 : ((readLine (b :: rest)).2.drop k).length ≤ (readLine (b :: rest)).2.length :=
      by simpa using List.length_drop_le k (readLine (b :: rest)).2
    simp only [List.length_cons]
    omega
  · have h1 := readLine_snd_cons_le b rest
    simp only [List.length_cons]
    omega

/-- `ConnectionHandler.handle_open` applied to the stream positioned right
after the `open` line: fresh header dictionary and empty payload buffer. -/
def handleOpen (stream : List Nat) : Except PyErr (OpenReq × List Nat) :=
  handleOpenLoop stream [] []

theorem handleOpenLoop_rest_le (stream : List Nat) (vars : List (List Nat × List Nat))
    (data : List Nat) :
    ∀ q, handleOpenLoop stream vars data = .ok q → q.2.length ≤ stream.length := by
  induction stream, vars, data using handleOpenLoop.induct with
  | case1 vars data =>
    intro q hq
    simp [handleOpenLoop] at hq
    simp [← hq]
  | case2 vars data b rest r line hline =>
    intro q hq
    simp only [handleOpenLoop] at hq
    rw [if_pos hline] at hq
    have h3 := readLine_snd_cons_le b rest
    have hq2 : q.2 = (readLine (b :: rest)).2 := by
      have := congrArg (fun e => match e with | Except.ok p => p.2 | _ => ([] : List Nat)) hq
      simpa using this.symm
    simp only [List.length_cons, hq2]
    omega
  | case3 vars data b rest r line hline hsplit =>
    intro q hq
    simp only [handleOpenLoop] at hq
    rw [if_neg hline] at hq
    rw [hsplit] at hq
    exact absurd hq (by simp)
  | case4 vars data b rest r line hline nv hsplit name value hname hdec =>
    intro q hq
    simp only [handleOpenLoop] at hq
    rw [if_neg hline, hsplit] at hq
    simp only [] at hq
    rw [if_pos hname, hdec] at hq
    exact absurd hq (by simp)
  | case5 vars data b rest r line hline nv hsplit name value hname k hdec ih =>
    intro q hq
    simp only [handleOpenLoop] at hq
    rw [if_neg hline, hsplit] at hq
    simp only [] at hq
    rw [if_pos hname, hdec] at hq
    have h1 := ih q hq
    have hr : r.2 = (readLine (b :: rest)).2 := rfl
    rw [hr] at h1
    have h2 : ((readLine (b :: rest)).2.drop k).length ≤ (readLine (b :: rest)).2.length := by
      simpa using List.length_drop_le k (readLine (b :: rest)).2
    have h3 := readLine_snd_cons_le b rest
    simp only [List.length_cons]
    omega
  | case6 vars data b rest r line hline nv hsplit name value hname ih =>
    intro q hq
    simp only [handleOpenLoop] at hq
    rw [if_neg hline, hsplit] at hq
    simp only [] at hq
    rw [if_neg hname] at hq
    have h1 := ih q hq
    have hr : r.2 = (readLine (b :: rest)).2 := rfl
    rw [hr] at h1
    have h3 := readLine_snd_cons_le b rest
    simp only [List.length_cons]
    omega

/-- The read loop of `ConnectionHandler.handle`: each stripped line is either
the `open` command (which runs `handle_open`, collecting the produced
request), the `.` terminator of a finished transfer (skipped), or an unknown
command (logged and skipped).  The accumulator records every `OpenRequest`
produced on the connection, in order; an exception escaping `handle_open`
escapes the loop. -/
def handleCmds (stream : List Nat) (acc : List OpenReq) : Except PyErr (List OpenReq) :=
  match stream with
  | [] => .ok acc
  | b :: rest =>
    let r := readLine (b :: rest)
    let line := stripBytes r.1
    if line = strBytes "open" then
      match h : handleOpenLoop r.2 [] [] with
      | .error e => .error e
      | .ok q => handleCmds q.2 (acc ++ [q.1])
    else handleCmds r.2 acc
termination_by stream.length
decreasing_by
  · have h1 := handleOpenLoop_rest_le r.2 [] [] q h
    have h2 : r.2.length ≤ rest.length := readLine_snd_cons_le b rest
    simp only [List.length_cons]
    omega
  · have h2 := readLine_snd_cons_le b rest
    have hr : r.2 = (readLine (b :: rest)).2 := rfl
    simp only [List.length_cons, hr]
    omega

/-- `ConnectionHandler.handle` from the point where the greeting banner has
been sent: feed the whole inbound stream through the command loop and report
the `OpenRequest`s produced (at most one `Session` reference is retained by
the handler, but one request is produced per `open` command read). -/
def handle (stream : List Nat) : Except PyErr (List OpenReq) :=
  handleCmds stream []

/-- A wire token in canonical form: nonempty, newline-free, and with no
whitespace at either edge (so stripping is the identity on it).  Header
names and the values the protocol scenarios use satisfy this. -/
def cleanTok (l : List Nat) : Prop :=
  l ≠ [] ∧ ¬ 10 ∈ l ∧ l.head?.all (fun h => !isSpaceB h) = true ∧
    l.getLast?.all (fun h => !isSpaceB h) = true

instance (l : List Nat) : Decidable (cleanTok l) := by
  unfold cleanTok; infer_instance

/-- One header line as it appears on the wire: `name: value` plus newline. -/
def renderHeader (n v : List Nat) : List Nat :=
  n ++ 58 :: 32 :: v ++ [10]

/-- A header pair the parser stores verbatim: clean name and value, the name
colon-free and different from `data`. -/
def cleanHeader (p : List Nat × List Nat) : Prop :=
  cleanTok p.1 ∧ cleanTok p.2 ∧ ¬ 58 ∈ p.1 ∧ p.1 ≠ strBytes "data"

instance (p : List Nat × List Nat) : Decidable (cleanHeader p) := by
  unfold cleanHeader; infer_instance

/-- The headers block of a transfer, rendered line by line. -/
def renderHeaders : List (List Nat × List Nat) → List Nat
  | [] => []
  | p :: t => renderHeader p.1 p.2 ++ renderHeaders t

theorem readLine_append (l r : List Nat) (h : ¬ 10 ∈ l) :
    readLine (l ++ 10 :: r) = (l ++ [10], r) := by
  induction l with
  | nil => simp [readLine]
  | cons a t ih =>
    have ha : a ≠ 10 := by simp at h; tauto
    have ht : ¬ 10 ∈ t := by simp at h; tauto
    simp [readLine, ha, ih ht]

theorem splitColon1_append (a b : List Nat) (h : ¬ 58 ∈ a) :
    splitColon1 (a ++ 58 :: b) = some (a, b) := by
  induction a with
  | nil => simp [splitColon1]
  | cons x t ih =>
    have hx : x ≠ 58 := by simp at h; tauto
    have ht : ¬ 58 ∈ t := by simp at h; tauto
    simp [splitColon1, hx, ih ht]

theorem dropWhile_eq_self_of_head (p : Nat → Bool) (l : List Nat)
    (h : l.head?.all (fun x => !p x) = true) : l.dropWhile p = l := by
  cases l with
  | nil => rfl
  | cons a t =>
    simp at h
    simp [List.dropWhile_cons, h]

theorem stripBytes_clean (l : List Nat) (h : cleanTok l) : stripBytes l = l := by
  obtain ⟨-, -, hh, hl⟩ := h
  unfold stripBytes
  rw [dropWhile_eq_self_of_head _ _ hh]
  rw [dropWhile_eq_self_of_head _ _ (by simpa [List.head?_reverse] using hl)]
  exact l.reverse_reverse

theorem stripBytes_append_newline (l : List Nat) :
    stripBytes (l ++ [10]) = stripBytes l := by
  unfold stripBytes
  rcases hd : l.dropWhile isSpaceB with - | ⟨a, t⟩
  · have h1 : (l ++ [10]).dropWhile isSpaceB = [] := by
      rw [List.dropWhile_append, hd]
      simp [isSpaceB]
    simp [h1, hd]
  · have hne : ¬ (l.dropWhile isSpaceB).isEmpty := by simp [hd]
    have h1 : (l ++ [10]).dropWhile isSpaceB = l.dropWhile isSpaceB ++ [10] := by
      rw [List.dropWhile_append]
      simp [hd]
    rw [h1]
    rw [List.reverse_append]
    simp only [List.dropWhile_cons, isSpaceB, List.reverse_cons]
    norm_num
    rw [hd]
    simp [List.dropWhile_cons, isSpaceB]

theorem stripBytes_cons_space (v : List Nat) :
    stripBytes (32 :: v) = stripBytes v := by
  unfold stripBytes
  simp [List.dropWhile_cons, isSpaceB]

theorem cleanTok_not_mem_newline (l : List Nat) (h : cleanTok l) : ¬ 10 ∈ l := h.2.1

theorem cleanTok_head (l : List Nat) (h : cleanTok l) :
    l.head?.all (fun x => !isSpaceB x) = true := h.2.2.1

theorem renderHeader_line (n v rest : List Nat) (hn : cleanTok n) (hv : cleanTok v)
    (hc : ¬ 58 ∈ n) :
    readLine (renderHeader n v ++ rest) = ((n ++ 58 :: 32 :: v) ++ [10], rest) ∧
      stripBytes ((n ++ 58 :: 32 :: v) ++ [10]) = n ++ 58 :: 32 :: v ∧
      splitColon1 (n ++ 58 :: 32 :: v) = some (n, 32 :: v) := by
  have h10 : ¬ 10 ∈ (n ++ 58 :: 32 :: v) := by
    simp [cleanTok_not_mem_newline n hn, cleanTok_not_mem_newline v hv]
  refine ⟨?_, ?_, splitColon1_append n (32 :: v) hc⟩
  · have : renderHeader n v ++ rest = (n ++ 58 :: 32 :: v) ++ 10 :: rest := by
      simp [renderHeader]
    rw [this, readLine_append _ _ h10]
  · rw [stripBytes_append_newline]
    apply stripBytes_clean
    refine ⟨by simp, h10, ?_, ?_⟩
    · rcases n with - | ⟨a, t⟩
      · exact absurd rfl hn.1
      · simpa using cleanTok_head _ hn
    · have hv2 := hv.2.2.2
      rcases v with - | ⟨a, t⟩
      · exact absurd rfl hv.1
      · have e1 : (n ++ 58 :: 32 :: a :: t).getLast? = (a :: t).getLast? := by
          rw [List.getLast?_append_of_ne_nil _ (by simp)]
          rw [show (58 :: 32 :: a :: t : List Nat) = [58, 32] ++ a :: t from rfl]
          rw [List.getLast?_append_of_ne_nil _ (by simp)]
        rw [e1]
        simpa using hv2

/-- Parsing one stored (non-`data`) header line: the pair is appended to the
dictionary and the loop continues. -/
theorem handleOpenLoop_header_step (n v rest : List Nat)
    (vars : List (List Nat × List Nat)) (data : List Nat)
    (hn : cleanTok n) (hv : cleanTok v) (hc : ¬ 58 ∈ n) (hd : n ≠ strBytes "data") :
    handleOpenLoop (renderHeader n v ++ rest) vars data
      = handleOpenLoop rest (vars ++ [(n, v)]) data := by
  obtain ⟨h1, h2, h3⟩ := renderHeader_line n v rest hn hv hc
  have hne : renderHeader n v ++ rest ≠ [] := by simp [renderHeader]
  rcases hs : renderHeader n v ++ rest with - | ⟨b, rest2⟩
  · exact absurd hs hne
  · rw [handleOpenLoop]
    rw [← hs, h1]
    simp only [h2, h3]
    have hnn : n ++ 58 :: 32 :: v ≠ [] := by simp
    rw [if_neg hnn]
    rw [stripBytes_clean n hn, stripBytes_cons_space, stripBytes_clean v hv]
    rw [if_neg hd]

theorem parseDecimal_digits (ds : List Nat) (n : Nat) (h : parseDecimal ds = some n) :
    ds ≠ [] ∧ ∀ b ∈ ds, isDigitB b = true := by
  unfold parseDecimal at h
  by_cases h1 : ds.isEmpty
  · simp [h1] at h
  · by_cases h2 : ds.all isDigitB
    · refine ⟨by simpa using h1, by simpa [List.all_eq_true] using h2⟩
    · simp [h1, h2] at h

theorem digit_clean (b : Nat) (h : isDigitB b = true) :
    isSpaceB b = false ∧ b ≠ 10 ∧ b ≠ 58 := by
  simp [isDigitB] at h
  simp [isSpaceB]
  omega

theorem cleanTok_of_digits (ds : List Nat) (n : Nat) (h : parseDecimal ds = some n) :
    cleanTok ds ∧ ¬ 58 ∈ ds := by
  obtain ⟨hne, hdig⟩ := parseDecimal_digits ds n h
  have hsp : ∀ b ∈ ds, isSpaceB b = false := fun b hb => (digit_clean b (hdig b hb)).1
  refine ⟨⟨hne, ?_, ?_, ?_⟩, ?_⟩
  · intro hmem
    exact absurd rfl (digit_clean 10 (hdig 10 hmem)).2.1
  · rcases ds with - | ⟨a, t⟩
    · exact absurd rfl hne
    · simpa using hsp a (by simp)
  · rcases hl : ds.getLast? with - | e
    · simp
    · have hmem : e ∈ ds := by
        obtain ⟨h9, he⟩ := @List.mem_getLast?_eq_getLast _ ds e (by simp [hl])
        rw [he]
        exact List.getLast_mem h9
      simp [hsp e hmem]
  · intro hmem
    exact absurd rfl (digit_clean 58 (hdig 58 hmem)).2.2

/-- Parsing the `data` header: the declared number of raw bytes is consumed
from the stream verbatim into the payload buffer, and the loop continues
after them — with no check that any other header was collected first. -/
theorem handleOpenLoop_data_step (ds payload rest : List Nat) (n : Nat)
    (vars : List (List Nat × List Nat)) (data : List Nat)
    (hds : parseDecimal ds = some n) (hlen : payload.length = n) :
    handleOpenLoop (renderHeader (strBytes "data") ds ++ (payload ++ rest)) vars data
      = handleOpenLoop rest vars (data ++ payload) := by
  obtain ⟨hclean, h58⟩ := cleanTok_of_digits ds n hds
  have hname : cleanTok (strBytes "data") := by decide
  have hcol : ¬ 58 ∈ strBytes "data" := by decide
  obtain ⟨h1, h2, h3⟩ := renderHeader_line (strBytes "data") ds (payload ++ rest)
    hname hclean hcol
  have hne : renderHeader (strBytes "data") ds ++ (payload ++ rest) ≠ [] := by
    simp [renderHeader]
  rcases hs : renderHeader (strBytes "data") ds ++ (payload ++ rest) with - | ⟨b, rest2⟩
  · exact absurd hs hne
  · rw [handleOpenLoop]
    rw [← hs, h1]
    simp only [h2, h3]
    have hnn : strBytes "data" ++ 58 :: 32 :: ds ≠ [] := by simp
    rw [if_neg hnn]
    rw [stripBytes_clean _ hname, stripBytes_cons_space, stripBytes_clean ds hclean]
    rw [if_pos rfl, hds]
    rw [← hlen]
    show handleOpenLoop ((payload ++ rest).drop payload.length) vars
        (data ++ (payload ++ rest).take payload.length) = _
    rw [List.take_left, List.drop_left]

/-- A blank line ends the header loop and completes the request. -/
theorem handleOpenLoop_blank (rest : List Nat) (vars : List (List Nat × List Nat))
    (data : List Nat) :
    handleOpenLoop (10 :: rest) vars data = .ok (⟨vars, data⟩, rest) := by
  rw [handleOpenLoop]
  simp [readLine, stripBytes, isSpaceB]

/-- A lone `.` line inside the header loop has no colon: unpacking it raises
`ValueError`. -/
theorem handleOpenLoop_dot_line (rest : List Nat) (vars : List (List Nat × List Nat))
    (data : List Nat) :
    handleOpenLoop (46 :: 10 :: rest) vars data = .error .valueError := by
  rw [handleOpenLoop]
  simp [readLine, stripBytes, isSpaceB, splitColon1]

/-- Running the header loop over a whole rendered headers block stores every
pair, in order. -/
theorem handleOpenLoop_headers (hs : List (List Nat × List Nat)) (rest : List Nat)
    (vars : List (List Nat × List Nat)) (data : List Nat)
    (h : ∀ p ∈ hs, cleanHeader p) :
    handleOpenLoop (renderHeaders hs ++ rest) vars data
      = handleOpenLoop rest (vars ++ hs) data := by
  induction hs generalizing vars with
  | nil => simp [renderHeaders]
  | cons p t ih =>
    obtain ⟨hn, hv, hc, hd⟩ := h p (by simp)
    have hstream : renderHeaders (p :: t) ++ rest
        = renderHeader p.1 p.2 ++ (renderHeaders t ++ rest) := by
      simp [renderHeaders]
    rw [hstream, handleOpenLoop_header_step p.1 p.2 _ vars data hn hv hc hd]
    rw [ih (vars ++ [p]) (fun q hq => h q (List.mem_cons_of_mem p hq))]
    simp

theorem handleCmds_nil (acc : List OpenReq) : handleCmds [] acc = .ok acc := by
  rw [handleCmds]

/-- An `open` line whose transfer parses successfully: the request is
collected and the loop continues on the unconsumed stream. -/
theorem handleCmds_open_ok (rest : List Nat) (acc : List OpenReq) (req : OpenReq)
    (rest2 : List Nat) (h : handleOpenLoop rest [] [] = .ok (req, rest2)) :
    handleCmds (strBytes "open\n" ++ rest) acc = handleCmds rest2 (acc ++ [req]) := by
  have hpre : strBytes "open\n" = strBytes "open" ++ [10] := by decide
  have h10 : ¬ 10 ∈ strBytes "open" := by decide
  have hline : readLine (strBytes "open" ++ 10 :: rest) = (strBytes "open" ++ [10], rest) :=
    readLine_append _ _ h10
  have hstrip : stripBytes (strBytes "open" ++ [10]) = strBytes "open" := by
    rw [stripBytes_append_newline]
    exact stripBytes_clean _ (by decide)
  have hne : strBytes "open" ++ 10 :: rest ≠ [] := by simp [strBytes]
  rw [hpre, List.append_assoc, List.singleton_append]
  rcases hs2 : strBytes "open" ++ 10 :: rest with - | ⟨b, rest3⟩
  · exact absurd hs2 hne
  · rw [handleCmds, ← hs2, hline]
    simp only [hstrip, if_true]
    split
    · next e heq =>
      rw [h] at heq
      cases heq
    · next q heq =>
      rw [h] at heq
      injection heq with h2
      subst h2
      rfl

/-- An `open` line whose transfer raises: the exception escapes the loop and
the connection handler. -/
theorem handleCmds_open_err (rest : List Nat) (acc : List OpenReq) (e : PyErr)
    (h : handleOpenLoop rest [] [] = .error e) :
    handleCmds (strBytes "open\n" ++ rest) acc = .error e := by
  have hpre : strBytes "open\n" = strBytes "open" ++ [10] := by decide
  have h10 : ¬ 10 ∈ strBytes "open" := by decide
  have hline : readLine (strBytes "open" ++ 10 :: rest) = (strBytes "open" ++ [10], rest) :=
    readLine_append _ _ h10
  have hstrip : stripBytes (strBytes "open" ++ [10]) = strBytes "open" := by
    rw [stripBytes_append_newline]
    exact stripBytes_clean _ (by decide)
  have hne : strBytes "open" ++ 10 :: rest ≠ [] := by simp [strBytes]
  rw [hpre, List.append_assoc, List.singleton_append]
  rcases hs2 : strBytes "open" ++ 10 :: rest with - | ⟨b, rest3⟩
  · exact absurd hs2 hne
  · rw [handleCmds, ← hs2, hline]
    simp only [hstrip, if_true]
    split
    · next e2 heq =>
      rw [h] at heq
      injection heq with h2
      subst h2
      rfl
    · next q heq =>
      rw [h] at heq
      cases heq

/-- The `.` terminator line after a completed transfer is skipped by the
command loop. -/
theorem handleCmds_dot (rest : List Nat) (acc : List OpenReq) :
    handleCmds (46 :: 10 :: rest) acc = handleCmds rest acc := by
  rw [handleCmds]
  have hline : readLine (46 :: 10 :: rest) = ([46, 10], rest) := by
    simp [readLine]
  rw [hline]
  have hstrip : stripBytes [46, 10] = [46] := by decide
  simp only [hstrip]
  rw [if_neg (by decide)]

/-- One complete `open` transaction on the wire, in the only shape the code
accepts: headers, the `data` header, the raw payload, a newline that strips
to the blank line ending the header loop, then the `.` terminator line. -/
theorem handleCmds_txn (hs : List (List Nat × List Nat)) (ds payload rest : List Nat)
    (acc : List OpenReq) (n : Nat) (hh : ∀ p ∈ hs, cleanHeader p)
    (hds : parseDecimal ds = some n) (hlen : payload.length = n) :
    handleCmds (strBytes "open\n" ++ (renderHeaders hs ++ (renderHeader (strBytes "data") ds
        ++ (payload ++ (10 :: 46 :: 10 :: rest))))) acc
      = handleCmds rest (acc ++ [⟨hs, payload⟩]) := by
  have hok : handleOpenLoop (renderHeaders hs ++ (renderHeader (strBytes "data") ds
      ++ (payload ++ (10 :: 46 :: 10 :: rest)))) [] []
      = .ok (⟨hs, payload⟩, 46 :: 10 :: rest) := by
    rw [handleOpenLoop_headers hs _ [] [] hh]
    simp only [List.nil_append]
    have hshape : renderHeader (strBytes "data") ds ++ (payload ++ (10 :: 46 :: 10 :: rest))
        = renderHeader (strBytes "data") ds ++ (payload ++ (10 :: (46 :: 10 :: rest))) := rfl
    rw [hshape, handleOpenLoop_data_step ds payload (10 :: (46 :: 10 :: rest)) n hs [] hds hlen]
    simp only [List.nil_append]
    exact handleOpenLoop_blank _ _ _
  rw [handleCmds_open_ok _ acc ⟨hs, payload⟩ (46 :: 10 :: rest) hok, handleCmds_dot]

/-- Claim C1, counterexample: on a connection whose first header line after
`open` is `data: 3`, with no other header collected before it, the parser
does read the 3-byte binary body (`abc`) into the request payload, so the
transition to reading the body does happen. -/
theorem c1_counterexample :
    handle (strBytes "open\ndata: 3\nabc\n") = .ok [⟨[], strBytes "abc"⟩] := by
  have e1 : strBytes "open\ndata: 3\nabc\n"
      = strBytes "open\n" ++ (renderHeaders [] ++ (renderHeader (strBytes "data") [51]
          ++ (strBytes "abc" ++ (10 :: [])))) := by decide
  unfold handle
  rw [e1]
  have hok : handleOpenLoop (renderHeaders [] ++ (renderHeader (strBytes "data") [51]
      ++ (strBytes "abc" ++ (10 :: [])))) [] []
      = .ok (⟨[], strBytes "abc"⟩, []) := by
    rw [handleOpenLoop_headers [] _ [] [] (by intro p hp; cases hp)]
    simp only [List.nil_append]
    rw [handleOpenLoop_data_step [51] (strBytes "abc") (10 :: []) 3 [] [] (by decide) (by decide)]
    simp only [List.nil_append]
    exact handleOpenLoop_blank _ _ _
  rw [handleCmds_open_ok _ [] ⟨[], strBytes "abc"⟩ [] hok, handleCmds_nil]
  simp

/-- Claim C1 (amended): a `data` header read by `handle_open` triggers the
body read unconditionally — in particular when it is the very first header
line and no other header has been collected, the declared number of raw
bytes is still consumed into the payload. -/
theorem c1_data_first_header_still_reads_body (ds payload rest : List Nat) (n : Nat)
    (hds : parseDecimal ds = some n) (hlen : payload.length = n) :
    handleOpen (renderHeader (strBytes "data") ds ++ (payload ++ 10 :: rest))
      = .ok (⟨[], payload⟩, rest) := by
  unfold handleOpen
  rw [handleOpenLoop_data_step ds payload (10 :: rest) n [] [] hds hlen]
  simp only [List.nil_append]
  exact handleOpenLoop_blank _ _ _

/-- Claim C1 witness: the amended statement evaluated on the concrete
first-header `data: 3` stream carrying `abc`. -/
theorem c1_witness :
    handleOpen (strBytes "data: 3\nabc\n") = .ok (⟨[], strBytes "abc"⟩, []) := by
  have e1 : strBytes "data: 3\nabc\n"
      = renderHeader (strBytes "data") [51] ++ (strBytes "abc" ++ 10 :: []) := by decide
  rw [e1]
  exact c1_data_first_header_still_reads_body [51] (strBytes "abc") [] 3 (by decide) (by decide)

/-- Claim C2, counterexample: the scenario stream from the specification
(`open`, headers, `data: 5`, the 5 payload bytes, then the terminating
`.\n` line immediately after the payload) does not produce an `OpenRequest`
at all — the `.` line is read back in the header loop, has no colon, and
unpacking it raises `ValueError`, which aborts the connection. -/
theorem c2_counterexample :
    handle (strBytes "open\ndisplay-name: host:/tmp/a.txt\ntoken: abc\ndata: 5\nhello.\n")
      = .error .valueError := by
  have e1 : strBytes "open\ndisplay-name: host:/tmp/a.txt\ntoken: abc\ndata: 5\nhello.\n"
      = strBytes "open\n"
        ++ (renderHeaders [(strBytes "display-name", strBytes "host:/tmp/a.txt"),
              (strBytes "token", strBytes "abc")]
          ++ (renderHeader (strBytes "data") [53]
            ++ (strBytes "hello" ++ (46 :: 10 :: [])))) := by decide
  unfold handle
  rw [e1]
  have herr : handleOpenLoop
      (renderHeaders [(strBytes "display-name", strBytes "host:/tmp/a.txt"),
          (strBytes "token", strBytes "abc")]
        ++ (renderHeader (strBytes "data") [53] ++ (strBytes "hello" ++ (46 :: 10 :: []))))
      [] [] = .error .valueError := by
    rw [handleOpenLoop_headers _ _ [] [] (by decide)]
    simp only [List.nil_append]
    rw [handleOpenLoop_data_step [53] (strBytes "hello") (46 :: 10 :: []) 5 _ []
      (by decide) (by decide)]
    exact handleOpenLoop_dot_line _ _ _
  exact handleCmds_open_err _ [] .valueError herr

/-- Claim C2 (amended): for a well-formed transfer in which the payload
bytes are followed by a newline (the blank line that ends the header loop)
before the terminating `.` line, the parsed request's payload has length
exactly the declared byte count and is byte-for-byte the raw bytes that
followed the `data` header line, embedded newlines included, never decoded
as text; a `.` line placed immediately after the payload instead raises
`ValueError` and yields no request. -/
theorem c2_payload_exact (hs : List (List Nat × List Nat)) (ds payload : List Nat) (n : Nat)
    (hh : ∀ p ∈ hs, cleanHeader p) (hds : parseDecimal ds = some n)
    (hlen : payload.length = n) :
    handle (strBytes "open\n" ++ (renderHeaders hs ++ (renderHeader (strBytes "data") ds
        ++ (payload ++ (10 :: 46 :: 10 :: [])))))
      = .ok [⟨hs, payload⟩] ∧ payload.length = n := by
  refine ⟨?_, hlen⟩
  unfold handle
  rw [handleCmds_txn hs ds payload [] [] n hh hds hlen, handleCmds_nil]
  simp

/-- Claim C2 witness: the amended statement on the concrete stream
`open`, `token: abc`, `data: 5`, payload `hello`, newline, `.` line. -/
theorem c2_witness :
    handle (strBytes "open\ntoken: abc\ndata: 5\nhello\n.\n")
      = .ok [⟨[(strBytes "token", strBytes "abc")], strBytes "hello"⟩] := by
  have e1 : strBytes "open\ntoken: abc\ndata: 5\nhello\n.\n"
      = strBytes "open\n" ++ (renderHeaders [(strBytes "token", strBytes "abc")]
          ++ (renderHeader (strBytes "data") [53]
            ++ (strBytes "hello" ++ (10 :: 46 :: 10 :: [])))) := by decide
  rw [e1]
  exact (c2_payload_exact [(strBytes "token", strBytes "abc")] [53] (strBytes "hello") 5
    (by decide) (by decide) (by decide)).1

/-- Claim C8, counterexample: a connection that sends two complete `open`
transactions produces two `OpenRequest`s (and hence two `Session`
constructions), not at most one. -/
theorem c8_counterexample :
    handle (strBytes "open\ntoken: a\ndata: 1\nX\n.\nopen\ntoken: b\ndata: 2\nYZ\n.\n")
      = .ok [⟨[(strBytes "token", strBytes "a")], strBytes "X"⟩,
             ⟨[(strBytes "token", strBytes "b")], strBytes "YZ"⟩] := by
  have e1 : strBytes "open\ntoken: a\ndata: 1\nX\n.\nopen\ntoken: b\ndata: 2\nYZ\n.\n"
      = strBytes "open\n" ++ (renderHeaders [(strBytes "token", strBytes "a")]
          ++ (renderHeader (strBytes "data") [49]
            ++ (strBytes "X" ++ (10 :: 46 :: 10 ::
        (strBytes "open\n" ++ (renderHeaders [(strBytes "token", strBytes "b")]
          ++ (renderHeader (strBytes "data") [50]
            ++ (strBytes "YZ" ++ (10 :: 46 :: 10 :: []))))))))) := by decide
  unfold handle
  rw [e1]
  rw [handleCmds_txn _ [49] (strBytes "X") _ [] 1 (by decide) (by decide) (by decide)]
  rw [handleCmds_txn _ [50] (strBytes "YZ") _ _ 2 (by decide) (by decide) (by decide)]
  rw [handleCmds_nil]
  simp

/-- Claim C8 (amended): the handler produces one `OpenRequest` per `open`
command line it reads — a connection carrying two complete `open`
transactions yields two requests (the handler's `self.session` keeps only
the last), rather than at most one per connection. -/
theorem c8_one_request_per_open_command (t1 t2 ds1 ds2 p1 p2 : List Nat) (n1 n2 : Nat)
    (ht1 : cleanTok t1) (ht2 : cleanTok t2)
    (hds1 : parseDecimal ds1 = some n1) (hlen1 : p1.length = n1)
    (hds2 : parseDecimal ds2 = some n2) (hlen2 : p2.length = n2) :
    handle (strBytes "open\n" ++ (renderHeaders [(strBytes "token", t1)]
          ++ (renderHeader (strBytes "data") ds1 ++ (p1 ++ (10 :: 46 :: 10 ::
        (strBytes "open\n" ++ (renderHeaders [(strBytes "token", t2)]
          ++ (renderHeader (strBytes "data") ds2 ++ (p2 ++ (10 :: 46 :: 10 :: []))))))))))
      = .ok [⟨[(strBytes "token", t1)], p1⟩, ⟨[(strBytes "token", t2)], p2⟩] := by
  have hclean1 : ∀ p ∈ [(strBytes "token", t1)], cleanHeader p := by
    intro p hp
    simp at hp
    subst hp
    exact ⟨show cleanTok (strBytes "token") by decide, ht1,
      show ¬ 58 ∈ strBytes "token" by decide,
      show strBytes "token" ≠ strBytes "data" by decide⟩
  have hclean2 : ∀ p ∈ [(strBytes "token", t2)], cleanHeader p := by
    intro p hp
    simp at hp
    subst hp
    exact ⟨show cleanTok (strBytes "token") by decide, ht2,
      show ¬ 58 ∈ strBytes "token" by decide,
      show strBytes "token" ≠ strBytes "data" by decide⟩
  unfold handle
  rw [handleCmds_txn _ ds1 p1 _ [] n1 hclean1 hds1 hlen1]
  rw [handleCmds_txn _ ds2 p2 _ _ n2 hclean2 hds2 hlen2]
  rw [handleCmds_nil]
  simp

/-- Claim C8 witness: the amended statement on two concrete transactions
with tokens `a`, `b` and payloads `X`, `YZ`. -/
theorem c8_witness :
    handle (strBytes "open\n" ++ (renderHeaders [(strBytes "token", strBytes "a")]
          ++ (renderHeader (strBytes "data") [49]
            ++ (strBytes "X" ++ (10 :: 46 :: 10 ::
        (strBytes "open\n" ++ (renderHeaders [(strBytes "token", strBytes "b")]
          ++ (renderHeader (strBytes "data") [50]
            ++ (strBytes "YZ" ++ (10 :: 46 :: 10 :: []))))))))))
      = .ok [⟨[(strBytes "token", strBytes "a")], strBytes "X"⟩,
             ⟨[(strBytes "token", strBytes "b")], strBytes "YZ"⟩] :=
  c8_one_request_per_open_command (strBytes "a") (strBytes "b") [49] [50]
    (strBytes "X") (strBytes "YZ") 1 2 (by decide) (by decide)
    (by decide) (by decide) (by decide) (by decide)

/-! ## Session, filesystem, socket and registry model

`Session` state is the fields of the Python object that the claims observe:
whether `self.socket` is still set, the header dictionary `self.env`, the
`self.view` reference (its Sublime view id, `none` before `open_view` and
after `close`), `self.temp_path`, plus the bytes this session has written to
its socket so far.  The filesystem is the set of directories and the
path-to-content map touched by the code; the registry (`sessions`) is the
list of view ids currently mapped. -/

structure Fs where
  dirs : List (List Nat)
  files : List (List Nat × List Nat)
deriving DecidableEq, Repr

def getFile (fs : Fs) (p : List Nat) : Option (List Nat) :=
  (fs.files.find? fun q => q.1 == p).map (·.2)

def hasFile (fs : Fs) (p : List Nat) : Bool :=
  (getFile fs p).isSome

def writeFile (fs : Fs) (p d : List Nat) : Fs :=
  { fs with files := (fs.files.filter fun q => !(q.1 == p)) ++ [(p, d)] }

def removeFile (fs : Fs) (p : List Nat) : Fs :=
  { fs with files := fs.files.filter fun q => !(q.1 == p) }

def hasDir (fs : Fs) (d : List Nat) : Bool :=
  fs.dirs.contains d

def removeDir (fs : Fs) (d : List Nat) : Fs :=
  { fs with dirs := fs.dirs.filter fun x => !(x == d) }

/-- A path lies directly under the directory `d`. -/
def underDir (d p : List Nat) : Bool :=
  (d ++ [47]).isPrefixOf p

/-- `shutil.rmtree(d, True)`: remove the directory and everything under it,
ignoring errors. -/
def rmtree (fs : Fs) (d : List Nat) : Fs :=
  { dirs := fs.dirs.filter fun x => !(x == d),
    files := fs.files.filter fun q => !(underDir d q.1) }

/-- `os.rmdir` only succeeds on an existing empty directory: no file left
under it. -/
def dirEmptyIn (fs : Fs) (d : List Nat) : Bool :=
  fs.files.all fun q => !(underDir d q.1)

/-- `os.path.dirname`: everything before the last slash. -/
def dirname (p : List Nat) : List Nat :=
  (((p.reverse.dropWhile fun b => !(b == 47))).drop 1).reverse

/-- `os.path.basename(s.split(sep)[-1])` composition used by the source:
last `sep`-separated component. -/
def lastComponent (sep : Nat) (s : List Nat) : List Nat :=
  (s.splitOn sep).getLastD []

structure Session where
  socketOpen : Bool
  env : List (List Nat × List Nat)
  view : Option Nat
  temp_path : List Nat
  sent : List Nat
deriving DecidableEq, Repr

/-- `Session.send`.  `out` is the outcome of the underlying
`self.socket.send` call: `none` models an `OSError` (caught by the code) and
`some k` a kernel that accepted `k` bytes (capped at the data length, as a
real socket cannot send more).  The returned flag records whether the
"Socket connection to the rsub client is broken!" message was logged.  The
function is total: no outcome makes it raise — with no socket it falls
through to the log line, and the only fallible call sits inside
`try/except OSError`. -/
def Session.send (s : Session) (data : List Nat) (out : Option Nat) : Session × Bool :=
  if s.socketOpen then
    match out with
    | none => (s, true)
    | some k =>
      if data.length ≤ k then ({ s with sent := s.sent ++ data }, false)
      else ({ s with sent := s.sent ++ data.take k }, true)
  else (s, true)

/-- `Session.send_save`: read the temp file back in full, then send the
`save` line, the `token` line, the `data` byte-count line, the raw content
and a trailing newline, each through `Session.send` with its own socket
outcome.  A missing temp file (`open` fails) or a missing `token` header
(`KeyError`) escapes, as in the source. -/
def Session.send_save (s : Session) (fs : Fs) (o1 o2 o3 o4 o5 : Option Nat) :
    Except PyErr Session :=
  match getFile fs s.temp_path with
  | none => .error .ioError
  | some content =>
    match dictGet s.env (strBytes "token") with
    | none => .error .keyError
    | some tok =>
      let s1 := (Session.send s (strBytes "save" ++ [10]) o1).1
      let s2 := (Session.send s1 (strBytes "token: " ++ tok ++ [10]) o2).1
      let s3 := (Session.send s2 (strBytes "data: " ++ natBytes content.length ++ [10]) o3).1
      let s4 := (Session.send s3 content o4).1
      let s5 := (Session.send s4 [10] o5).1
      .ok s5

/-- `Session.close` (graceful close).  With the socket still set it sends
the `close` line, the `token` line and a blank line (a missing `token`
header raises `KeyError`), shuts the socket down (`OSError` there is caught)
and clears it; then `del sessions[self.view.id()]` runs unconditionally:
`self.view = None` raises `AttributeError`, a view id absent from the
registry raises `KeyError`, and on success the entry is removed and the
view reference cleared. -/
def Session.close (s : Session) (reg : List Nat) (o1 o2 o3 : Option Nat) :
    Except PyErr (Session × List Nat) :=
  match (if s.socketOpen then
          match dictGet s.env (strBytes "token") with
          | none => Except.error PyErr.keyError
          | some tok =>
            let a := (Session.send s (strBytes "close" ++ [10]) o1).1
            let b := (Session.send a (strBytes "token: " ++ tok ++ [10]) o2).1
            let c := (Session.send b [10] o3).1
            Except.ok { c with socketOpen := false }
        else Except.ok s) with
  | .error e => .error e
  | .ok s1 =>
    match s1.view with
    | none => .error .attributeError
    | some vid =>
      if reg.contains vid then .ok ({ s1 with view := none }, reg.erase vid)
      else .error .keyError

/-- `Session.terminate` (non-graceful teardown).  The Sublime view-status
mutations are pure UI calls with no state tracked here.  `os.unlink` raises
`FileNotFoundError` for a missing temp file and `OSError` on any other
failure (`unlinkOk = false`); `os.rmdir` raises `OSError` unless the parent
directory exists, is empty after the unlink, and the environment lets it
succeed (`rmdirOk`).  Neither call is wrapped in `try`, so every failure
propagates; the registry is never touched. -/
def Session.terminate (s : Session) (fs : Fs) (unlinkOk rmdirOk : Bool) :
    Except PyErr Fs :=
  if hasFile fs s.temp_path = false then .error .fileNotFoundError
  else if unlinkOk = false then .error .osError
  else
    let fs1 := removeFile fs s.temp_path
    let d := dirname s.temp_path
    if hasDir fs1 d && dirEmptyIn fs1 d && rmdirOk then .ok (removeDir fs1 d)
    else .error .osError

/-- Errors surfaced by `Session.__init__`: `mkdtemp` failure, the
`display-name` `KeyError`, and the temp-file write failure. -/
inductive MatErr where
  | mkdtempFailed
  | keyError
  | ioError
deriving DecidableEq, Repr

/-- Result of `Session.__init__`, carrying the filesystem left behind in
both outcomes so that orphan-state claims are expressible. -/
inductive InitResult where
  | ok (fs : Fs) (s : Session)
  | failed (e : MatErr) (fs : Fs)
deriving DecidableEq, Repr

/-- `Session.__init__` (materialization).  `tempDir` is the fresh directory
name chosen by `tempfile.mkdtemp`; `mkdtempOk`/`writeOk` are the outcomes of
the two fallible filesystem calls.  On `mkdtemp` failure nothing was
created.  The filename is the basename of the last `:`-separated component
of `display-name` (a missing key raises `KeyError`, leaving the fresh
directory orphaned).  On write failure the file created by `open(..., 'wb+')`
and the directory are removed by `shutil.rmtree(temp_dir, True)` before the
`IOError` propagates.  On success the payload sits in the temp file and the
session starts with its socket set and no view yet. -/
def Session.init (fs : Fs) (env : List (List Nat × List Nat)) (data : List Nat)
    (tempDir : List Nat) (mkdtempOk writeOk : Bool) : InitResult :=
  if mkdtempOk = false then .failed .mkdtempFailed fs
  else
    let fs1 : Fs := { fs with dirs := fs.dirs ++ [tempDir] }
    match dictGet env (strBytes "display-name") with
    | none => .failed .keyError fs1
    | some dn =>
      let filename := lastComponent 47 (lastComponent 58 dn)
      let temp_path := tempDir ++ 47 :: filename
      if writeOk = false then .failed .ioError (rmtree (writeFile fs1 temp_path []) tempDir)
      else .ok (writeFile fs1 temp_path data)
        { socketOpen := true, env := env, view := none, temp_path := temp_path, sent := [] }

/-- `Session.__init__` followed by the scheduled `open_view`: on success the
editor assigns `viewId`, the session is stored in the global `sessions`
registry under it, and `self.view` is set; on failure the registry is left
untouched. -/
def materializeAndRegister (fs : Fs) (reg : List Nat) (env : List (List Nat × List Nat))
    (data : List Nat) (tempDir : List Nat) (viewId : Nat) (mkdtempOk writeOk : Bool) :
    InitResult × List Nat :=
  match Session.init fs env data tempDir mkdtempOk writeOk with
  | .ok fs2 s => (.ok fs2 { s with view := some viewId }, reg ++ [viewId])
  | .failed e fs2 => (.failed e fs2, reg)

/-- `ConnectionHandler.finish`: runs when the read loop ends, and calls
`self.session.terminate()` unconditionally — `self.session = None` (no
transfer completed on this connection) raises `AttributeError`, and any
exception out of `terminate` propagates to the server framework. -/
def ConnectionHandler.finish (session : Option Session) (fs : Fs)
    (unlinkOk rmdirOk : Bool) : Except PyErr Fs :=
  match session with
  | none => .error .attributeError
  | some s => s.terminate fs unlinkOk rmdirOk

theorem send_full (s : Session) (data : List Nat) (k : Nat)
    (hs : s.socketOpen = true) (hk : data.length ≤ k) :
    Session.send s data (some k) = ({ s with sent := s.sent ++ data }, false) := by
  simp [Session.send, hs, hk]

theorem send_fst_socketOpen (s : Session) (d : List Nat) (o : Option Nat) :
    (Session.send s d o).1.socketOpen = s.socketOpen := by
  unfold Session.send
  rcases o with - | k
  · by_cases hs : s.socketOpen <;> simp [hs]
  · by_cases hs : s.socketOpen <;> by_cases hk : d.length ≤ k <;> simp [hs, hk]

theorem send_fst_view (s : Session) (d : List Nat) (o : Option Nat) :
    (Session.send s d o).1.view = s.view := by
  unfold Session.send
  rcases o with - | k
  · by_cases hs : s.socketOpen <;> simp [hs]
  · by_cases hs : s.socketOpen <;> by_cases hk : d.length ≤ k <;> simp [hs, hk]

theorem send_fst_env (s : Session) (d : List Nat) (o : Option Nat) :
    (Session.send s d o).1.env = s.env := by
  unfold Session.send
  rcases o with - | k
  · by_cases hs : s.socketOpen <;> simp [hs]
  · by_cases hs : s.socketOpen <;> by_cases hk : d.length ≤ k <;> simp [hs, hk]

theorem send_fst_temp_path (s : Session) (d : List Nat) (o : Option Nat) :
    (Session.send s d o).1.temp_path = s.temp_path := by
  unfold Session.send
  rcases o with - | k
  · by_cases hs : s.socketOpen <;> simp [hs]
  · by_cases hs : s.socketOpen <;> by_cases hk : d.length ≤ k <;> simp [hs, hk]

/-- The exact byte sequence `send_save` puts on a healthy socket. -/
theorem send_save_spec (s : Session) (fs : Fs) (B tok : List Nat)
    (k1 k2 k3 k4 k5 : Nat)
    (hsock : s.socketOpen = true)
    (hfile : getFile fs s.temp_path = some B)
    (htok : dictGet s.env (strBytes "token") = some tok)
    (h1 : (strBytes "save" ++ [10]).length ≤ k1)
    (h2 : (strBytes "token: " ++ tok ++ [10]).length ≤ k2)
    (h3 : (strBytes "data: " ++ natBytes B.length ++ [10]).length ≤ k3)
    (h4 : B.length ≤ k4)
    (h5 : 1 ≤ k5) :
    Session.send_save s fs (some k1) (some k2) (some k3) (some k4) (some k5)
      = .ok { s with sent := s.sent ++ ((strBytes "save" ++ [10])
          ++ ((strBytes "token: " ++ tok ++ [10])
          ++ ((strBytes "data: " ++ natBytes B.length ++ [10]) ++ (B ++ [10])))) } := by
  unfold Session.send_save
  rw [hfile, htok]
  simp only [Session.send, hsock, if_true, h1, h2, h3, h4, h5, if_pos]
  simp [h1, h2, h3, h4, h5]

/-- Claim C10: `Session.send` never raises, for any argument and any socket
outcome — its codomain is a plain pair, with the only fallible call guarded
by `try/except OSError`.  With the socket torn down (`None`) it performs no
send and leaves the session unchanged; an `OSError` leaves the session
unchanged; a full send appends the bytes with no broken-connection log; a
partial send appends only the accepted prefix and logs the
broken-connection message (the second component). -/
theorem c10_send_never_raises (s : Session) (data : List Nat) (out : Option Nat) :
    (s.socketOpen = false → Session.send s data out = (s, true))
    ∧ (out = none → Session.send s data out = (s, true))
    ∧ (∀ k, out = some k → s.socketOpen = true → data.length ≤ k →
        Session.send s data out = ({ s with sent := s.sent ++ data }, false))
    ∧ (∀ k, out = some k → s.socketOpen = true → k < data.length →
        Session.send s data out = ({ s with sent := s.sent ++ data.take k }, true)) := by
  refine ⟨?_, ?_, ?_, ?_⟩
  · intro hs
    rcases out with - | k <;> simp [Session.send, hs]
  · intro ho
    subst ho
    by_cases hs : s.socketOpen <;> simp [Session.send, hs]
  · intro k hk hs hlen
    subst hk
    simp [Session.send, hs, hlen]
  · intro k hk hs hlen
    subst hk
    have hno : ¬ data.length ≤ k := by omega
    simp [Session.send, hs, hno]

/-- Claim C10 witness: the four clauses evaluated at concrete sessions,
data and outcomes. -/
theorem c10_witness :
    Session.send ⟨false, [], none, [], []⟩ [65] (some 5) = (⟨false, [], none, [], []⟩, true)
    ∧ Session.send ⟨true, [], none, [], []⟩ [65] none = (⟨true, [], none, [], []⟩, true)
    ∧ Session.send ⟨true, [], none, [], []⟩ [65, 66] (some 2)
        = (⟨true, [], none, [], [65, 66]⟩, false)
    ∧ Session.send ⟨true, [], none, [], []⟩ [65, 66] (some 1)
        = (⟨true, [], none, [], [65]⟩, true) := by
  refine ⟨(c10_send_never_raises _ _ _).1 rfl, (c10_send_never_raises _ _ _).2.1 rfl, ?_, ?_⟩
  · have h := (c10_send_never_raises ⟨true, [], none, [], []⟩ [65, 66] (some 2)).2.2.1
      2 rfl rfl (by decide)
    simpa using h
  · have h := (c10_send_never_raises ⟨true, [], none, [], []⟩ [65, 66] (some 1)).2.2.2
      1 rfl rfl (by decide)
    simpa using h

/-- Claim C3: for a session whose temp file holds the byte sequence `B` and
whose socket accepts each write in full, `send_save` writes to the socket
exactly, in order: `save\n`, `token: <token>\n`, `data: <length of B>\n`,
the raw bytes `B`, and a single trailing newline. -/
theorem c3_save_notification_format (s : Session) (fs : Fs) (B tok : List Nat)
    (k1 k2 k3 k4 k5 : Nat)
    (hsock : s.socketOpen = true)
    (hfile : getFile fs s.temp_path = some B)
    (htok : dictGet s.env (strBytes "token") = some tok)
    (h1 : (strBytes "save" ++ [10]).length ≤ k1)
    (h2 : (strBytes "token: " ++ tok ++ [10]).length ≤ k2)
    (h3 : (strBytes "data: " ++ natBytes B.length ++ [10]).length ≤ k3)
    (h4 : B.length ≤ k4)
    (h5 : 1 ≤ k5) :
    Session.send_save s fs (some k1) (some k2) (some k3) (some k4) (some k5)
      = .ok { s with sent := s.sent ++ ((strBytes "save" ++ [10])
          ++ ((strBytes "token: " ++ tok ++ [10])
          ++ ((strBytes "data: " ++ natBytes B.length ++ [10]) ++ (B ++ [10])))) } :=
  send_save_spec s fs B tok k1 k2 k3 k4 k5 hsock hfile htok h1 h2 h3 h4 h5

/-- Claim C3 witness: token `abc` and content `HELLO` produce exactly the
bytes `save\ntoken: abc\ndata: 5\nHELLO\n`. -/
theorem c3_witness :
    Session.send_save
        ⟨true, [(strBytes "token", strBytes "abc")], some 1, strBytes "/tmp/rsub-1/a.txt", []⟩
        ⟨[strBytes "/tmp/rsub-1"], [(strBytes "/tmp/rsub-1/a.txt", strBytes "HELLO")]⟩
        (some 64) (some 64) (some 64) (some 64) (some 64)
      = .ok ⟨true, [(strBytes "token", strBytes "abc")], some 1, strBytes "/tmp/rsub-1/a.txt",
          strBytes "save\ntoken: abc\ndata: 5\nHELLO\n"⟩ := by
  have h := c3_save_notification_format
    ⟨true, [(strBytes "token", strBytes "abc")], some 1, strBytes "/tmp/rsub-1/a.txt", []⟩
    ⟨[strBytes "/tmp/rsub-1"], [(strBytes "/tmp/rsub-1/a.txt", strBytes "HELLO")]⟩
    (strBytes "HELLO") (strBytes "abc") 64 64 64 64 64
    rfl (by decide) (by decide) (by decide) (by decide) (by decide) (by decide) (by decide)
  rw [h]
  decide

theorem getFile_writeFile (fs : Fs) (p d : List Nat) :
    getFile (writeFile fs p d) p = some d := by
  unfold getFile writeFile
  have hnone : (fs.files.filter fun q => !(q.1 == p)).find? (fun q => q.1 == p) = none := by
    rw [List.find?_eq_none]
    intro x hx
    have := (List.mem_filter.mp hx).2
    simp at this
    simp [this]
  rw [List.find?_append, hnone]
  simp

/-- Claim C4: materializing an `OpenRequest` (writing its payload to the
fresh temp file) and then invoking `send_save` with the file unmodified
streams back a payload byte-identical to the original: the bytes put on the
socket are the save header lines followed by exactly the materialized
`data` and the trailing newline. -/
theorem c4_roundtrip (fs : Fs) (env : List (List Nat × List Nat))
    (data tempDir dn tok : List Nat) (fs2 : Fs) (s : Session)
    (k1 k2 k3 k4 k5 : Nat)
    (hdn : dictGet env (strBytes "display-name") = some dn)
    (htok : dictGet env (strBytes "token") = some tok)
    (hinit : Session.init fs env data tempDir true true = .ok fs2 s)
    (h1 : (strBytes "save" ++ [10]).length ≤ k1)
    (h2 : (strBytes "token: " ++ tok ++ [10]).length ≤ k2)
    (h3 : (strBytes "data: " ++ natBytes data.length ++ [10]).length ≤ k3)
    (h4 : data.length ≤ k4)
    (h5 : 1 ≤ k5) :
    Session.send_save s fs2 (some k1) (some k2) (some k3) (some k4) (some k5)
      = .ok { s with sent := (strBytes "save" ++ [10])
          ++ ((strBytes "token: " ++ tok ++ [10])
          ++ ((strBytes "data: " ++ natBytes data.length ++ [10]) ++ (data ++ [10]))) } := by
  unfold Session.init at hinit
  rw [hdn] at hinit
  simp only [InitResult.ok.injEq, reduceIte] at hinit
  obtain ⟨hfs2, hsess⟩ := hinit
  have h := send_save_spec
    ⟨true, env, none, tempDir ++ 47 :: lastComponent 47 (lastComponent 58 dn), []⟩
    (writeFile ⟨fs.dirs ++ [tempDir], fs.files⟩
      (tempDir ++ 47 :: lastComponent 47 (lastComponent 58 dn)) data)
    data tok k1 k2 k3 k4 k5 rfl (getFile_writeFile _ _ _) htok h1 h2 h3 h4 h5
  simpa using h

/-- Claim C4 witness: materializing payload `HELLO` for
`display-name: host:/tmp/a.txt`, then saving without modification, streams
back exactly `save\ntoken: abc\ndata: 5\nHELLO\n`. -/
theorem c4_witness :
    Session.send_save
        ⟨true, [(strBytes "display-name", strBytes "host:/tmp/a.txt"),
                (strBytes "token", strBytes "abc")],
         none, strBytes "/tmp/rsub-1/a.txt", []⟩
        ⟨[strBytes "/tmp/rsub-1"], [(strBytes "/tmp/rsub-1/a.txt", strBytes "HELLO")]⟩
        (some 64) (some 64) (some 64) (some 64) (some 64)
      = .ok ⟨true, [(strBytes "display-name", strBytes "host:/tmp/a.txt"),
                    (strBytes "token", strBytes "abc")],
             none, strBytes "/tmp/rsub-1/a.txt",
             strBytes "save\ntoken: abc\ndata: 5\nHELLO\n"⟩ := by
  have h := c4_roundtrip ⟨[], []⟩
    [(strBytes "display-name", strBytes "host:/tmp/a.txt"), (strBytes "token", strBytes "abc")]
    (strBytes "HELLO") (strBytes "/tmp/rsub-1") (strBytes "host:/tmp/a.txt") (strBytes "abc")
    ⟨[strBytes "/tmp/rsub-1"], [(strBytes "/tmp/rsub-1/a.txt", strBytes "HELLO")]⟩
    ⟨true, [(strBytes "display-name", strBytes "host:/tmp/a.txt"),
            (strBytes "token", strBytes "abc")],
     none, strBytes "/tmp/rsub-1/a.txt", []⟩
    64 64 64 64 64 (by decide) (by decide) (by decide)
    (by decide) (by decide) (by decide) (by decide) (by decide)
  rw [h]
  decide

/-- A successful `close` always leaves the view reference cleared and the
socket torn down. -/
theorem close_ok_state (s : Session) (reg : List Nat) (o1 o2 o3 : Option Nat)
    (s1 : Session) (reg1 : List Nat)
    (h : Session.close s reg o1 o2 o3 = .ok (s1, reg1)) :
    s1.view = none ∧ s1.socketOpen = false := by
  unfold Session.close at h
  by_cases hs : s.socketOpen
  · rcases htok : dictGet s.env (strBytes "token") with - | tok
    · simp [hs, htok] at h
    · simp only [hs, if_true, htok] at h
      rw [send_fst_view, send_fst_view, send_fst_view] at h
      rcases hv : s.view with - | vid
      · simp only [hv] at h
        simp at h
      · simp only [hv] at h
        by_cases hr : reg.contains vid = true
        · rw [if_pos hr] at h
          rw [Except.ok.injEq, Prod.mk.injEq] at h
          obtain ⟨hss, -⟩ := h
          rw [← hss]
          exact ⟨rfl, rfl⟩
        · rw [if_neg hr] at h
          simp at h
  · have hs2 : s.socketOpen = false := by simpa using hs
    simp only [hs2, Bool.false_eq_true, if_false] at h
    rcases hv : s.view with - | vid
    · simp only [hv] at h
      simp at h
    · simp only [hv] at h
      by_cases hr : reg.contains vid = true
      · rw [if_pos hr] at h
        rw [Except.ok.injEq, Prod.mk.injEq] at h
        obtain ⟨hss, -⟩ := h
        rw [← hss]
        exact ⟨rfl, rfl⟩
      · rw [if_neg hr] at h
        simp at h

/-- A second `close` on a closed-down session raises `AttributeError` when
it evaluates `self.view.id()` on the cleared view. -/
theorem close_closed_raises (s1 : Session) (reg1 : List Nat) (p1 p2 p3 : Option Nat)
    (hv : s1.view = none) (hs : s1.socketOpen = false) :
    Session.close s1 reg1 p1 p2 p3 = .error .attributeError := by
  unfold Session.close
  rw [hs]
  simp [hv]

theorem getFile_removeFile (fs : Fs) (p : List Nat) :
    getFile (removeFile fs p) p = none := by
  unfold getFile removeFile
  have : (fs.files.filter fun q => !(q.1 == p)).find? (fun q => q.1 == p) = none := by
    rw [List.find?_eq_none]
    intro x hx
    have := (List.mem_filter.mp hx).2
    simp at this
    simp [this]
  simp [this]

/-- A successful `terminate` deletes the temp file, so the file is gone from
the resulting filesystem. -/
theorem terminate_ok_no_file (s : Session) (fs : Fs) (u r : Bool) (fs2 : Fs)
    (h : Session.terminate s fs u r = .ok fs2) :
    hasFile fs2 s.temp_path = false := by
  unfold Session.terminate at h
  by_cases h1 : hasFile fs s.temp_path = false
  · simp [h1] at h
  · rw [if_neg h1] at h
    by_cases h2 : u = false
    · simp [h2] at h
    · rw [if_neg h2] at h
      by_cases h3 : (hasDir (removeFile fs s.temp_path) (dirname s.temp_path)
          && dirEmptyIn (removeFile fs s.temp_path) (dirname s.temp_path) && r) = true
      · rw [if_pos h3] at h
        injection h with hfs2
        rw [← hfs2]
        unfold hasFile
        have : getFile (removeDir (removeFile fs s.temp_path) (dirname s.temp_path))
            s.temp_path = getFile (removeFile fs s.temp_path) s.temp_path := rfl
        rw [this, getFile_removeFile]
        rfl
      · rw [if_neg h3] at h
        cases h

/-- Claim C5 (amended): neither teardown path is idempotent.  A second
`close` raises `AttributeError` (the first call cleared `self.view`, and
`del sessions[self.view.id()]` dereferences it), and a second `terminate`
raises `FileNotFoundError` (the first call already unlinked the temp file).
The second invocation is an error, not a no-op. -/
theorem c5_second_teardown_raises (s : Session) (reg : List Nat)
    (o1 o2 o3 p1 p2 p3 : Option Nat) (fs fs2 : Fs) (u r u2 r2 : Bool) :
    (∀ s1 reg1, Session.close s reg o1 o2 o3 = .ok (s1, reg1) →
      Session.close s1 reg1 p1 p2 p3 = .error .attributeError)
    ∧ (Session.terminate s fs u r = .ok fs2 →
        Session.terminate s fs2 u2 r2 = .error .fileNotFoundError) := by
  constructor
  · intro s1 reg1 h
    obtain ⟨hv, hs1⟩ := close_ok_state s reg o1 o2 o3 s1 reg1 h
    exact close_closed_raises s1 reg1 p1 p2 p3 hv hs1
  · intro h
    have hno := terminate_ok_no_file s fs u r fs2 h
    unfold Session.terminate
    rw [if_pos (by simp [hno])]

/-- Claim C5, counterexample: invoking each teardown path twice is not a
no-op.  The first `close` succeeds and clears the view; the second raises
`AttributeError`.  The first `terminate` succeeds and deletes the temp file
and directory; the second raises `FileNotFoundError`. -/
theorem c5_counterexample :
    (Session.close ⟨true, [(strBytes "token", strBytes "abc")], some 1,
          strBytes "/tmp/rsub-1/a.txt", []⟩ [1] (some 64) (some 64) (some 64)
        = .ok (⟨false, [(strBytes "token", strBytes "abc")], none,
            strBytes "/tmp/rsub-1/a.txt", strBytes "close\ntoken: abc\n\n"⟩, [])
      ∧ Session.close ⟨false, [(strBytes "token", strBytes "abc")], none,
            strBytes "/tmp/rsub-1/a.txt", strBytes "close\ntoken: abc\n\n"⟩ []
            (some 64) (some 64) (some 64)
          = .error .attributeError)
    ∧ (Session.terminate ⟨true, [(strBytes "token", strBytes "abc")], some 1,
          strBytes "/tmp/rsub-1/a.txt", []⟩
          ⟨[strBytes "/tmp/rsub-1"], [(strBytes "/tmp/rsub-1/a.txt", strBytes "HELLO")]⟩
          true true
        = .ok ⟨[], []⟩
      ∧ Session.terminate ⟨true, [(strBytes "token", strBytes "abc")], some 1,
          strBytes "/tmp/rsub-1/a.txt", []⟩ ⟨[], []⟩ true true
          = .error .fileNotFoundError) := by
  refine ⟨⟨?_, ?_⟩, ⟨?_, ?_⟩⟩ <;> decide

/-- Claim C5 witness: the amended statement applied to the same concrete
session, registry and filesystem, with its first-call hypotheses discharged
by evaluation. -/
theorem c5_witness :
    Session.close ⟨false, [(strBytes "token", strBytes "abc")], none,
        strBytes "/tmp/rsub-1/b.txt", strBytes "close\ntoken: abc\n\n"⟩ []
        (some 32) (some 32) (some 32)
      = .error .attributeError
    ∧ Session.terminate ⟨true, [(strBytes "token", strBytes "abc")], some 2,
        strBytes "/tmp/rsub-2/b.txt", []⟩ ⟨[], []⟩ true true
      = .error .fileNotFoundError := by
  constructor
  · exact (c5_second_teardown_raises
      ⟨true, [(strBytes "token", strBytes "abc")], some 2, strBytes "/tmp/rsub-1/b.txt", []⟩
      [2] (some 32) (some 32) (some 32) (some 32) (some 32) (some 32)
      ⟨[], []⟩ ⟨[], []⟩ true true true true).1
      ⟨false, [(strBytes "token", strBytes "abc")], none,
        strBytes "/tmp/rsub-1/b.txt", strBytes "close\ntoken: abc\n\n"⟩ [] (by decide)
  · exact (c5_second_teardown_raises
      ⟨true, [(strBytes "token", strBytes "abc")], some 2, strBytes "/tmp/rsub-2/b.txt", []⟩
      [2] (some 32) (some 32) (some 32) (some 32) (some 32) (some 32)
      ⟨[strBytes "/tmp/rsub-2"], [(strBytes "/tmp/rsub-2/b.txt", strBytes "X")]⟩
      ⟨[], []⟩ true true true true).2 (by decide)

/-- Claim C6, counterexample: with the temp file present but `os.unlink`
failing, `terminate` raises the `OSError` instead of logging it — the
deletion failure is fatal to the caller. -/
theorem c6_counterexample :
    Session.terminate ⟨true, [(strBytes "token", strBytes "abc")], some 1,
        strBytes "/tmp/rsub-1/a.txt", []⟩
      ⟨[strBytes "/tmp/rsub-1"], [(strBytes "/tmp/rsub-1/a.txt", strBytes "HELLO")]⟩
      false true
    = .error .osError := by decide

/-- Claim C6 (amended): deletion failures during `terminate` are not caught
or logged — `os.unlink` and `os.rmdir` are unguarded, so a failure of
either propagates out of `terminate` as an exception (and the registry,
which `terminate` never touches, is unaffected either way). -/
theorem c6_terminate_propagates_deletion_failure (s : Session) (fs : Fs) (r : Bool)
    (hfile : hasFile fs s.temp_path = true) :
    Session.terminate s fs false r = .error .osError := by
  unfold Session.terminate
  rw [if_neg (by simp [hfile])]
  rw [if_pos rfl]

/-- Claim C6 witness: the amended statement on a concrete session whose
unlink fails. -/
theorem c6_witness :
    Session.terminate ⟨true, [(strBytes "token", strBytes "abc")], some 3,
        strBytes "/tmp/rsub-3/c.txt", []⟩
      ⟨[strBytes "/tmp/rsub-3"], [(strBytes "/tmp/rsub-3/c.txt", strBytes "X")]⟩
      false false
    = .error .osError :=
  c6_terminate_propagates_deletion_failure
    ⟨true, [(strBytes "token", strBytes "abc")], some 3, strBytes "/tmp/rsub-3/c.txt", []⟩
    ⟨[strBytes "/tmp/rsub-3"], [(strBytes "/tmp/rsub-3/c.txt", strBytes "X")]⟩
    false (by decide)

/-- Claim C7, counterexample: a connection whose read loop ends without a
materialized session does not "just close the socket": `finish` evaluates
`self.session.terminate()` on `None` and the `AttributeError` escapes the
handler (it is the server framework above that catches it). -/
theorem c7_counterexample :
    ConnectionHandler.finish none ⟨[], []⟩ true true = .error .attributeError := rfl

/-- Claim C7 (amended): when the read loop ends, `finish` invokes
`terminate` unconditionally on `self.session`: with a materialized session
the call is exactly `terminate` (whose exceptions propagate out of the
handler); with no session it raises `AttributeError` instead of just closing
the socket.  The handler itself catches nothing at the connection
boundary. -/
theorem c7_finish_behaviour (fs : Fs) (u r : Bool) (s : Session) :
    ConnectionHandler.finish none fs u r = .error .attributeError
    ∧ ConnectionHandler.finish (some s) fs u r = Session.terminate s fs u r :=
  ⟨rfl, rfl⟩

theorem underDir_self_append (d f : List Nat) : underDir d (d ++ 47 :: f) = true := by
  unfold underDir
  have : d ++ 47 :: f = (d ++ [47]) ++ f := by simp
  rw [this]
  rw [List.isPrefixOf_iff_prefix]
  exact List.prefix_append _ _

theorem Fs.ext2 (a b : Fs) (h1 : a.dirs = b.dirs) (h2 : a.files = b.files) : a = b := by
  cases a
  cases b
  simp_all

/-- Claim C9: materialization is atomic on write failure.  With a fresh
temp directory (as `mkdtemp` guarantees) and the payload write failing, the
partially created directory and file are removed by `rmtree` before the
`IOError` propagates — the filesystem is exactly as before — and no session
is produced or registered. -/
theorem c9_write_failure_atomic (fs : Fs) (reg : List Nat)
    (env : List (List Nat × List Nat)) (data tempDir dn : List Nat) (viewId : Nat)
    (hdn : dictGet env (strBytes "display-name") = some dn)
    (hdir : ¬ tempDir ∈ fs.dirs)
    (hfiles : ∀ q ∈ fs.files, underDir tempDir q.1 = false) :
    materializeAndRegister fs reg env data tempDir viewId true false
      = (.failed .ioError fs, reg) := by
  unfold materializeAndRegister Session.init
  rw [hdn]
  simp only [reduceIte]
  have hdirs : (fs.dirs ++ [tempDir]).filter (fun x => !(x == tempDir)) = fs.dirs := by
    rw [List.filter_append]
    have h1 : fs.dirs.filter (fun x => !(x == tempDir)) = fs.dirs := by
      rw [List.filter_eq_self]
      intro x hx
      simp only [Bool.not_eq_eq_eq_not, Bool.not_true, beq_eq_false_iff_ne, ne_eq]
      intro h
      exact hdir (h ▸ hx)
    rw [h1]
    simp
  have hfl : ((fs.files.filter fun q =>
        !(q.1 == tempDir ++ 47 :: lastComponent 47 (lastComponent 58 dn)))
      ++ [(tempDir ++ 47 :: lastComponent 47 (lastComponent 58 dn), ([] : List Nat))]).filter
        (fun q => !(underDir tempDir q.1)) = fs.files := by
    rw [List.filter_append]
    have h3 : (fs.files.filter fun q =>
        !(q.1 == tempDir ++ 47 :: lastComponent 47 (lastComponent 58 dn))) = fs.files := by
      rw [List.filter_eq_self]
      intro q hq
      have hu := hfiles q hq
      simp only [Bool.not_eq_eq_eq_not, Bool.not_true, beq_eq_false_iff_ne, ne_eq]
      intro h
      rw [h, underDir_self_append] at hu
      cases hu
    have h1 : fs.files.filter (fun q => !(underDir tempDir q.1)) = fs.files := by
      rw [List.filter_eq_self]
      intro q hq
      simp [hfiles q hq]
    rw [h3, h1]
    simp [underDir_self_append]
  have hfs : rmtree (writeFile ⟨fs.dirs ++ [tempDir], fs.files⟩
      (tempDir ++ 47 :: lastComponent 47 (lastComponent 58 dn)) []) tempDir = fs := by
    apply Fs.ext2
    · exact hdirs
    · exact hfl
  rw [hfs]
  simp

/-- Claim C9 witness: a concrete write failure leaves the filesystem and
registry exactly as they were. -/
theorem c9_witness :
    materializeAndRegister ⟨[strBytes "/home"], [(strBytes "/home/x", strBytes "Y")]⟩ [7]
        [(strBytes "display-name", strBytes "host:/tmp/a.txt"),
         (strBytes "token", strBytes "abc")]
        (strBytes "HELLO") (strBytes "/tmp/rsub-9") 4 true false
      = (.failed .ioError ⟨[strBytes "/home"], [(strBytes "/home/x", strBytes "Y")]⟩, [7]) :=
  c9_write_failure_atomic
    ⟨[strBytes "/home"], [(strBytes "/home/x", strBytes "Y")]⟩ [7]
    [(strBytes "display-name", strBytes "host:/tmp/a.txt"), (strBytes "token", strBytes "abc")]
    (strBytes "HELLO") (strBytes "/tmp/rsub-9") (strBytes "host:/tmp/a.txt") 4
    (by decide) (by decide) (by decide)
